import Mathlib

/-!
Verification of the aspect-ratio-correction and linear-light execution
pipeline of vs-kernels (src/vskernels/kernels/complex.py).

The embedding models the pure decision/geometry content of the module:

* `fromParam` embeds the module-level helper `_from_param`,
* `getKwargsKeepAr` embeds `KeepArScaler._get_kwargs_keep_ar`,
* `handleCropResizeKwargs` embeds `KeepArScaler._handle_crop_resize_kwargs`,
* `scalePipeline` embeds the observable effects of `KeepArScaler.scale`
  (the resolved warning, the corrected crop/shift kwargs handed to the
  external resample primitive, and the output SAR tag applied afterwards),
* `effSigmoid` / `effLinear` / `linearPath` embed the dispatch logic of
  `_BaseLinearOperation._linear_op`.

Rational numbers stand in for python floats (the geometry is exact
real-number arithmetic in the source; no rounding is performed there).
The external value types Sar / Dar of vstools are modelled through the
interface the module uses: an aspect value is an exact positive ratio,
`Dar.from_size(clip, False)` is the width/height ratio of the clip,
`Dar.from_size(width, height)` is width/height, `Sar.from_clip` is the
SAR carried by the clip metadata (an input of the model), and
`from_float` constructs the ratio with the given value.
-/

namespace VsKernels

/-- Runtime type of the sar/dar keyword arguments of `KeepArScaler.scale`
(python annotation Sar | Dar | float | bool | None): `pnone` is python
None, `pbool` a bool, `inst` an instance of the expected aspect class
(modelled as its exact ratio), `num` any other float-convertible value
(SupportsFloatOrIndex), and `other` a value of none of these kinds, for
example a non-numeric string. -/
inductive XarParam where
  | pnone
  | pbool (b : Bool)
  | inst (v : ℚ)
  | num (x : ℚ)
  | other
deriving DecidableEq

/-- Embedding of `_from_param` (complex.py lines 21-34): False selects the
fallback, True selects None (auto-derivation), an instance of the class is
kept, a float-convertible value is converted via `from_float`, and any
other value (python None included) falls through to `return None`. -/
def fromParam : XarParam → ℚ → Option ℚ
  | .pbool false, fallback => some fallback
  | .pbool true, _ => none
  | .inst v, _ => some v
  | .num x, _ => some x
  | .other, _ => none
  | .pnone, _ => none

/-- Output of `KeepArScaler._get_kwargs_keep_ar`: the resolved sar/dar
entries left in the kwargs dict, plus whether the UserWarning was
printed. -/
structure ResolvedKeepAr where
  sar : XarParam
  dar : XarParam
  warned : Bool
deriving DecidableEq

/-- Embedding of `KeepArScaler._get_kwargs_keep_ar` (complex.py lines
93-110).  The warning fires when None is not among the values of keep_ar,
sar and dar; keep_ar is declared `bool` in the `scale` signature, hence it
is never None and only the sar/dar checks are effective.  Afterwards
keep_ar is popped and every axis still equal to None is replaced by the
bool keep_ar. -/
def getKwargsKeepAr (sar dar : XarParam) (keepAr : Bool) : ResolvedKeepAr :=
  let warned := decide (sar ≠ XarParam.pnone) && decide (dar ≠ XarParam.pnone)
  ⟨if sar = XarParam.pnone then XarParam.pbool keepAr else sar,
   if dar = XarParam.pnone then XarParam.pbool keepAr else dar,
   warned⟩

/-- Source clip as consumed by `_handle_crop_resize_kwargs`: its pixel
dimensions and the sample aspect ratio derivable from its metadata
(`Sar.from_clip`). -/
structure Clip where
  width : ℕ
  height : ℕ
  sar : ℚ
deriving DecidableEq

/-- Optional crop keyword arguments recognized by
`_handle_crop_resize_kwargs`: the resize-style src_* keys and their
sx/sy/sw/sh aliases. -/
structure CropKwargs where
  src_top : Option ℚ
  src_left : Option ℚ
  src_width : Option ℚ
  src_height : Option ℚ
  sy : Option ℚ
  sx : Option ℚ
  sw : Option ℚ
  sh : Option ℚ
deriving DecidableEq

/-- Crop kwargs with no key set, the common case of a plain scale call. -/
def noKw : CropKwargs := ⟨none, none, none, none, none, none, none, none⟩

/-- Crop window state carried in the kwargs dict: src_top, src_left,
src_width, src_height. -/
structure Crop where
  top : ℚ
  left : ℚ
  width : ℚ
  height : ℚ
deriving DecidableEq

/-- Embedding of the four `kwargs.setdefault(...)` lines of
`_handle_crop_resize_kwargs` (complex.py lines 117-120): each src_* key
defaults to its alias when given, else to the shift component or the clip
dimension. -/
def initialCrop (clip : Clip) (shift : ℚ × ℚ) (kw : CropKwargs) : Crop :=
  ⟨kw.src_top.getD (kw.sy.getD shift.1),
   kw.src_left.getD (kw.sx.getD shift.2),
   kw.src_width.getD (kw.sw.getD (clip.width : ℚ)),
   kw.src_height.getD (kw.sh.getD (clip.height : ℚ))⟩

/-- Embedding of `float(_from_param(Sar, sar, Sar(1, 1)) or
Sar.from_clip(clip))`: python `or` falls to the clip-derived SAR when the
resolved value is None or falsy (a zero ratio). -/
def srcSarOf (clip : Clip) (sar : XarParam) : ℚ :=
  match fromParam sar 1 with
  | some v => if v = 0 then clip.sar else v
  | none => clip.sar

/-- Embedding of `float(Dar.from_size(clip, False))`: the source display
aspect ratio taken from the clip dimensions without SAR compensation. -/
def srcDarOf (clip : Clip) : ℚ :=
  (clip.width : ℚ) / (clip.height : ℚ)

/-- Embedding of the out_dar computation of `_handle_crop_resize_kwargs`
(complex.py lines 127-133): resolve the dar parameter with the source DAR
as fallback (python `or` falls to `Dar.from_size(width, height)` when the
result is None or falsy), then, when the resolved source SAR is not 1.0,
overwrite it with the SAR-compensated target ratio. -/
def outDarOf (clip : Clip) (width height : ℕ) (sar dar : XarParam) : ℚ :=
  let src_sar := srcSarOf clip sar
  let out_dar :=
    match fromParam dar (srcDarOf clip) with
    | some v => if v = 0 then (width : ℚ) / (height : ℚ) else v
    | none => (width : ℚ) / (height : ℚ)
  if src_sar ≠ 1 then
    if src_sar > 1 then ((width : ℚ) / src_sar) / (height : ℚ)
    else (width : ℚ) / ((height : ℚ) * src_sar)
  else out_dar

/-- Embedding of the out_sar assignment of `_handle_crop_resize_kwargs`
(complex.py lines 129-135): out_sar starts as None and becomes Sar(1, 1)
inside the `src_sar != 1.0` branch, unconditionally within that branch. -/
def outSarOf (clip : Clip) (sar : XarParam) : Option (ℕ × ℕ) :=
  if srcSarOf clip sar ≠ 1 then some (1, 1) else none

/-- Result of `_handle_crop_resize_kwargs`: the crop state left in the
kwargs (src_width/src_height) together with the popped out_shift pair
(src_top, src_left), and the optional output SAR tag. -/
structure HandleResult where
  crop : Crop
  out_sar : Option (ℕ × ℕ)
deriving DecidableEq

/-- Embedding of `KeepArScaler._handle_crop_resize_kwargs` (complex.py
lines 112-157): resolve the crop kwargs, compute source and target DAR
and the output SAR tag, and when the two DARs differ trim exactly one
axis symmetrically (width when the source is relatively too wide, height
otherwise), using src_res — the crop window dimensions — in the excess
formula. -/
def handleCropResizeKwargs (clip : Clip) (width height : ℕ) (shift : ℚ × ℚ)
    (sar dar : XarParam) (kw : CropKwargs) : HandleResult :=
  let c := initialCrop clip shift kw
  let src_dar := srcDarOf clip
  let out_dar := outDarOf clip width height sar dar
  let out_sar := outSarOf clip sar
  let fixed :=
    if src_dar ≠ out_dar then
      if src_dar > out_dar then
        let fix_crop := c.width - c.height * out_dar
        { c with left := c.left + fix_crop / 2, width := c.width - fix_crop }
      else
        let fix_crop := c.height - c.width / out_dar
        { c with top := c.top + fix_crop / 2, height := c.height - fix_crop }
    else c
  ⟨fixed, out_sar⟩

/-- Observable outcome of `KeepArScaler.scale` (complex.py lines 159-181):
whether the keep_ar warning was printed, the corrected crop/shift kwargs
handed to the scale function, and the SAR tag applied to the result frame
(`if out_sar: clip = out_sar.apply(clip)`; the only possible tag Sar(1, 1)
is truthy, so the tag is applied exactly when out_sar is not None). -/
structure ScaleResult where
  warned : Bool
  handled : HandleResult
  tagApplied : Option (ℕ × ℕ)
deriving DecidableEq

/-- Embedding of `KeepArScaler.scale`: resolve the keep_ar/sar/dar kwargs,
run the crop/resize correction with the resolved parameters, and apply the
output SAR tag when one was produced. -/
def scalePipeline (clip : Clip) (width height : ℕ) (shift : ℚ × ℚ)
    (sar dar : XarParam) (keepAr : Bool) (kw : CropKwargs) : ScaleResult :=
  let r := getKwargsKeepAr sar dar keepAr
  let h := handleCropResizeKwargs clip width height shift r.sar r.dar kw
  ⟨r.warned, h, h.out_sar⟩

/-- Concreteness of a sar/dar override in the sense of the resolver
policy: an aspect-class instance or a plain number, as opposed to None,
a bool, or a non-numeric value. -/
def isConcrete : XarParam → Bool
  | .inst _ => true
  | .num _ => true
  | _ => false

/-- The sigmoid argument of `_BaseLinearOperation._linear_op`: a bool or a
(low, high) companding pair. -/
inductive SigmoidParam where
  | sbool (b : Bool)
  | pair (lo hi : ℚ)
deriving DecidableEq

/-- Python truthiness of a sigmoid argument: False is falsy, True and any
tuple are truthy. -/
def sigmoidTruthy : SigmoidParam → Bool
  | .sbool b => b
  | .pair _ _ => true

/-- Inputs of one `_linear_op`-wrapped call (complex.py lines 46-63):
the constructor kwargs entries for linear and sigmoid kept in
`orig_kwargs` by `_BaseLinearOperation.__init__` (None when absent), the
presence of a specialized `_linear_scale`/`_linear_descale` attribute on
the kernel, and the per-call linear/sigmoid arguments. -/
structure LinearOpArgs where
  origLinear : Option Bool
  origSigmoid : Option SigmoidParam
  hasCustomOp : Bool
  linear : Bool
  sigmoid : SigmoidParam
deriving DecidableEq

/-- Embedding of `sigmoid = self.orig_kwargs.get('sigmoid', sigmoid)`:
a constructor-supplied sigmoid replaces the per-call argument. -/
def effSigmoid (a : LinearOpArgs) : SigmoidParam :=
  a.origSigmoid.getD a.sigmoid

/-- Embedding of `linear = self.orig_kwargs.get('linear', False) or linear
or not not sigmoid`: the effective linear mode in `_linear_op`. -/
def effLinear (a : LinearOpArgs) : Bool :=
  a.origLinear.getD false || a.linear || sigmoidTruthy (effSigmoid a)

/-- Which execution path `_linear_op` takes: the direct invocation of the
default-space operation, or the LinearLight-scoped invocation, recording
whether the specialized linear-space override is the invoked operation. -/
inductive LinearPath where
  | direct
  | wrapped (usesCustomOp : Bool)
deriving DecidableEq

/-- Embedding of the dispatch of `_linear_op` (complex.py lines 52-61):
`operation` is the `_linear_<op>` attribute when it exists, else the
superclass operation; the direct path is taken when the effective linear
mode is off and no such attribute exists, otherwise the call runs inside
the LinearLight scope. -/
def linearPath (a : LinearOpArgs) : LinearPath :=
  if !(effLinear a) && !a.hasCustomOp then LinearPath.direct
  else LinearPath.wrapped a.hasCustomOp

/-! ## Theorems for the frozen claims -/

/-- C2, counterexample.  The claim restricts the warning to calls with
keep_ar set to true and concrete values on both axes; the code warns with
keep_ar false and explicit sar/dar (first conjunct), and with keep_ar true
but boolean (auto) sar/dar values (second conjunct). -/
theorem C2_counterexample :
    (getKwargsKeepAr (XarParam.num 2) (XarParam.num 2) false).warned = true ∧
    (getKwargsKeepAr (XarParam.pbool true) (XarParam.pbool true) true).warned = true := by
  decide

/-- C2, amended.  The resolver prints its non-fatal warning exactly when
both the sar and the dar argument are non-None — independent of the value
of keep_ar (a bool, hence never None) and of whether the supplied values
are concrete or boolean — and the call proceeds using the supplied
values. -/
theorem C2_warning_iff_both_non_none (sar dar : XarParam) (keepAr : Bool) :
    ((getKwargsKeepAr sar dar keepAr).warned = true ↔
      sar ≠ XarParam.pnone ∧ dar ≠ XarParam.pnone) ∧
    (sar ≠ XarParam.pnone → (getKwargsKeepAr sar dar keepAr).sar = sar) ∧
    (dar ≠ XarParam.pnone → (getKwargsKeepAr sar dar keepAr).dar = dar) := by
  refine ⟨?_, fun hs => ?_, fun hd => ?_⟩
  · simp [getKwargsKeepAr]
  · simp [getKwargsKeepAr, if_neg hs]
  · simp [getKwargsKeepAr, if_neg hd]

/-- C2, witness for the amended theorem at keep_ar true with one instance
and one numeric override. -/
theorem C2_warning_iff_witness :
    (getKwargsKeepAr (XarParam.num 2) (XarParam.inst 3) true).warned = true ∧
    (getKwargsKeepAr (XarParam.num 2) (XarParam.inst 3) true).sar = XarParam.num 2 :=
  ⟨(C2_warning_iff_both_non_none (XarParam.num 2) (XarParam.inst 3) true).1.mpr
      ⟨by decide, by decide⟩,
   (C2_warning_iff_both_non_none (XarParam.num 2) (XarParam.inst 3) true).2.1 (by decide)⟩

/-- C7.  Whenever the effective sigmoid argument of `_linear_op` (the
constructor value when present, else the per-call argument) is truthy, the
effective linear mode is forced true — whatever the literal linear
argument and constructor linear entry — and the call runs inside the
LinearLight scope. -/
theorem C7_sigmoid_forces_linear (a : LinearOpArgs)
    (h : sigmoidTruthy (effSigmoid a) = true) :
    effLinear a = true ∧ linearPath a = LinearPath.wrapped a.hasCustomOp := by
  have hl : effLinear a = true := by
    unfold effLinear
    rw [h]
    simp
  refine ⟨hl, ?_⟩
  unfold linearPath
  rw [hl]
  simp

/-- C7, witness: the spec scenario linear false, sigmoid True, no
constructor kwargs, no specialized override — the scoped transform is
entered. -/
theorem C7_sigmoid_forces_linear_witness :
    sigmoidTruthy (effSigmoid ⟨none, none, false, false, SigmoidParam.sbool true⟩) = true ∧
    effLinear ⟨none, none, false, false, SigmoidParam.sbool true⟩ = true ∧
    linearPath ⟨none, none, false, false, SigmoidParam.sbool true⟩ = LinearPath.wrapped false :=
  ⟨rfl,
   (C7_sigmoid_forces_linear ⟨none, none, false, false, SigmoidParam.sbool true⟩ rfl).1,
   (C7_sigmoid_forces_linear ⟨none, none, false, false, SigmoidParam.sbool true⟩ rfl).2⟩

/-- C8.  When the kernel defines a specialized linear-space operation the
call always runs inside the LinearLight scope and invokes that override,
independent of the linear flag; the direct invocation path is taken
exactly when the effective linear mode is off and no override exists. -/
theorem C8_override_preferred (a : LinearOpArgs) :
    (a.hasCustomOp = true → linearPath a = LinearPath.wrapped true) ∧
    (linearPath a = LinearPath.direct ↔
      effLinear a = false ∧ a.hasCustomOp = false) := by
  unfold linearPath
  constructor
  · intro h
    rw [h]
    simp
  · cases heff : effLinear a <;> cases hco : a.hasCustomOp <;> simp

/-- C8, witness: with an override and no linear request the path is the
scoped override; with neither, the direct path. -/
theorem C8_override_preferred_witness :
    linearPath ⟨none, none, true, false, SigmoidParam.sbool false⟩ = LinearPath.wrapped true ∧
    linearPath ⟨none, none, false, false, SigmoidParam.sbool false⟩ = LinearPath.direct :=
  ⟨(C8_override_preferred ⟨none, none, true, false, SigmoidParam.sbool false⟩).1 rfl,
   (C8_override_preferred ⟨none, none, false, false, SigmoidParam.sbool false⟩).2.mpr
      ⟨rfl, rfl⟩⟩

/-- C9, counterexample.  A sar/dar override that is neither a bool, nor an
aspect instance, nor float-convertible does not reach any constructor:
`_from_param` returns None for it, and the resolved source SAR is the
auto-derived clip SAR, exactly as when passing True — it is silently
treated as auto-derivation, no construction error is surfaced. -/
theorem C9_counterexample :
    fromParam XarParam.other 1 = none ∧
    srcSarOf ⟨720, 480, 5⟩ XarParam.other = 5 ∧
    srcSarOf ⟨720, 480, 5⟩ (XarParam.pbool true) = 5 := by
  decide

/-- C9, amended.  For every override value outside bool / instance /
float-convertible, `_from_param` yields None and the pipeline falls back
to auto-derivation on both axes (same resolved SAR and target DAR as an
explicit True); only float-convertible values reach the aspect-type
constructor, so no construction error can arise from such a value. -/
theorem C9_other_is_auto (clip : Clip) (fallback : ℚ) (width height : ℕ)
    (sar : XarParam) :
    fromParam XarParam.other fallback = none ∧
    srcSarOf clip XarParam.other = srcSarOf clip (XarParam.pbool true) ∧
    outDarOf clip width height sar XarParam.other =
      outDarOf clip width height sar (XarParam.pbool true) := by
  exact ⟨rfl, rfl, rfl⟩

/-- C1, counterexample.  Source resolving to SAR 2 with an explicitly
forced numeric DAR: the claim demands that no output SAR tag be applied,
but the code records Sar(1, 1) unconditionally inside the
`src_sar != 1.0` branch and applies it to the result. -/
theorem C1_counterexample :
    srcSarOf ⟨720, 480, 1⟩ (XarParam.num 2) ≠ 1 ∧
    (scalePipeline ⟨720, 480, 1⟩ 1280 720 (0, 0) (XarParam.num 2) (XarParam.num 2)
      false noKw).tagApplied = some (1, 1) := by
  constructor
  · decide
  · rfl

/-- C1, amended.  The 1:1 output SAR tag is applied to the result frame
exactly when the resolved source SAR is not 1 — whether or not the caller
forced a DAR; no branch suppresses the tag for a forced DAR. -/
theorem C1_tag_iff_nonsquare (clip : Clip) (width height : ℕ) (shift : ℚ × ℚ)
    (sar dar : XarParam) (keepAr : Bool) (kw : CropKwargs) :
    (scalePipeline clip width height shift sar dar keepAr kw).tagApplied = some (1, 1) ↔
      srcSarOf clip ((getKwargsKeepAr sar dar keepAr).sar) ≠ 1 := by
  by_cases h : srcSarOf clip ((getKwargsKeepAr sar dar keepAr).sar) = 1 <;>
    simp [scalePipeline, handleCropResizeKwargs, outSarOf, h]

/-- C3.  Per call the crop correction applies exactly one of the two axis
trims when source DAR and target DAR differ, and none when they are
equal: width is trimmed when the source DAR exceeds the target DAR, using
excess crop.width − crop.height · target_dar split evenly onto src_left,
and height is trimmed in the opposite case, using excess crop.height −
crop.width / target_dar split evenly onto src_top; the other axis is left
untouched in each case. -/
theorem C3_exactly_one_trim (clip : Clip) (width height : ℕ) (shift : ℚ × ℚ)
    (sar dar : XarParam) (kw : CropKwargs) :
    (srcDarOf clip = outDarOf clip width height sar dar →
      (handleCropResizeKwargs clip width height shift sar dar kw).crop =
        initialCrop clip shift kw) ∧
    (srcDarOf clip > outDarOf clip width height sar dar →
      (handleCropResizeKwargs clip width height shift sar dar kw).crop =
        { initialCrop clip shift kw with
            left := (initialCrop clip shift kw).left +
              ((initialCrop clip shift kw).width -
                (initialCrop clip shift kw).height *
                  outDarOf clip width height sar dar) / 2,
            width := (initialCrop clip shift kw).width -
              ((initialCrop clip shift kw).width -
                (initialCrop clip shift kw).height *
                  outDarOf clip width height sar dar) }) ∧
    (srcDarOf clip < outDarOf clip width height sar dar →
      (handleCropResizeKwargs clip width height shift sar dar kw).crop =
        { initialCrop clip shift kw with
            top := (initialCrop clip shift kw).top +
              ((initialCrop clip shift kw).height -
                (initialCrop clip shift kw).width /
                  outDarOf clip width height sar dar) / 2,
            height := (initialCrop clip shift kw).height -
              ((initialCrop clip shift kw).height -
                (initialCrop clip shift kw).width /
                  outDarOf clip width height sar dar) }) := by
  refine ⟨fun h => ?_, fun h => ?_, fun h => ?_⟩
  · simp [handleCropResizeKwargs, h]
  · simp [handleCropResizeKwargs, ne_of_gt h, h]
  · simp [handleCropResizeKwargs, ne_of_lt h, not_lt_of_lt h]

/-- C3, witness: the spec letterbox scenario — source 1920×1080 with
square pixels, target 1920×800, DAR auto; the source DAR 16/9 is below
the target DAR 12/5, so the height trim fires with excess 280, giving
src_top 140 and src_height 800 while left/width are untouched. -/
theorem C3_exactly_one_trim_witness :
    srcDarOf ⟨1920, 1080, 1⟩ <
      outDarOf ⟨1920, 1080, 1⟩ 1920 800 (XarParam.pbool false) (XarParam.pbool true) ∧
    (handleCropResizeKwargs ⟨1920, 1080, 1⟩ 1920 800 (0, 0)
      (XarParam.pbool false) (XarParam.pbool true) noKw).crop = ⟨140, 0, 1920, 800⟩ := by
  have hlt : srcDarOf ⟨1920, 1080, 1⟩ <
      outDarOf ⟨1920, 1080, 1⟩ 1920 800 (XarParam.pbool false) (XarParam.pbool true) := by
    norm_num [srcDarOf, outDarOf, srcSarOf, fromParam]
  refine ⟨hlt, ?_⟩
  rw [(C3_exactly_one_trim ⟨1920, 1080, 1⟩ 1920 800 (0, 0)
    (XarParam.pbool false) (XarParam.pbool true) noKw).2.2 hlt]
  norm_num [initialCrop, outDarOf, srcSarOf, srcDarOf, fromParam, noKw]

/-- C4.  The crop correction preserves the center of the crop window on
both axes: new_left + new_width/2 equals old_left + old_width/2 and
new_top + new_height/2 equals old_top + old_height/2, exactly in rational
arithmetic, for every call. -/
theorem C4_center_preserved (clip : Clip) (width height : ℕ) (shift : ℚ × ℚ)
    (sar dar : XarParam) (kw : CropKwargs) :
    (handleCropResizeKwargs clip width height shift sar dar kw).crop.left +
      (handleCropResizeKwargs clip width height shift sar dar kw).crop.width / 2 =
      (initialCrop clip shift kw).left + (initialCrop clip shift kw).width / 2 ∧
    (handleCropResizeKwargs clip width height shift sar dar kw).crop.top +
      (handleCropResizeKwargs clip width height shift sar dar kw).crop.height / 2 =
      (initialCrop clip shift kw).top + (initialCrop clip shift kw).height / 2 := by
  simp only [handleCropResizeKwargs]
  split_ifs <;> constructor <;> (try rfl) <;> ring

/-- C5.  Whenever the source resolves to a non-square SAR and the caller
gave no explicit DAR override (dar is None or a bool), the 1:1 output SAR
tag is produced and applied to the result frame. -/
theorem C5_nonsquare_tags_output (clip : Clip) (width height : ℕ) (shift : ℚ × ℚ)
    (sar dar : XarParam) (keepAr : Bool) (kw : CropKwargs)
    (hsar : srcSarOf clip ((getKwargsKeepAr sar dar keepAr).sar) ≠ 1)
    (hdar : dar = XarParam.pnone ∨ ∃ b, dar = XarParam.pbool b) :
    (scalePipeline clip width height shift sar dar keepAr kw).tagApplied = some (1, 1) := by
  simp [scalePipeline, handleCropResizeKwargs, outSarOf, hsar]

/-- C5, witness: an anamorphic source whose metadata SAR is 2, with sar
and dar both left as None and keep_ar true — the output carries the 1:1
tag. -/
theorem C5_nonsquare_tags_output_witness :
    srcSarOf ⟨720, 480, 2⟩ ((getKwargsKeepAr XarParam.pnone XarParam.pnone true).sar) ≠ 1 ∧
    (scalePipeline ⟨720, 480, 2⟩ 1280 720 (0, 0) XarParam.pnone XarParam.pnone
      true noKw).tagApplied = some (1, 1) :=
  ⟨by decide,
   C5_nonsquare_tags_output ⟨720, 480, 2⟩ 1280 720 (0, 0) XarParam.pnone XarParam.pnone
     true noKw (by decide) (Or.inl rfl)⟩

/-- C6.  With concrete values supplied for both sar and dar, keep_ar true
yields an outcome identical to keep_ar false in every observable respect
(warning flag, crop kwargs, shift, output tag), and the warning is
logged. -/
theorem C6_keep_ar_noop (clip : Clip) (width height : ℕ) (shift : ℚ × ℚ)
    (sar dar : XarParam) (kw : CropKwargs)
    (hs : isConcrete sar = true) (hd : isConcrete dar = true) :
    scalePipeline clip width height shift sar dar true kw =
      scalePipeline clip width height shift sar dar false kw ∧
    (scalePipeline clip width height shift sar dar true kw).warned = true := by
  have hs' : sar ≠ XarParam.pnone := by cases sar <;> simp_all [isConcrete]
  have hd' : dar ≠ XarParam.pnone := by cases dar <;> simp_all [isConcrete]
  have hres : getKwargsKeepAr sar dar true = getKwargsKeepAr sar dar false := by
    simp [getKwargsKeepAr, if_neg hs', if_neg hd']
  constructor
  · simp only [scalePipeline, hres]
  · simp [scalePipeline, getKwargsKeepAr, hs', hd']

/-- C6, witness: numeric sar 2 and instance dar 3 — the two pipelines
agree and the warning fires. -/
theorem C6_keep_ar_noop_witness :
    scalePipeline ⟨720, 480, 1⟩ 1280 720 (0, 0) (XarParam.num 2) (XarParam.inst 3)
      true noKw =
      scalePipeline ⟨720, 480, 1⟩ 1280 720 (0, 0) (XarParam.num 2) (XarParam.inst 3)
        false noKw ∧
    (scalePipeline ⟨720, 480, 1⟩ 1280 720 (0, 0) (XarParam.num 2) (XarParam.inst 3)
      true noKw).warned = true :=
  C6_keep_ar_noop ⟨720, 480, 1⟩ 1280 720 (0, 0) (XarParam.num 2) (XarParam.inst 3)
    noKw rfl rfl

/-- C10.  A sigmoid entry in the constructor kwargs replaces the per-call
sigmoid argument wholesale (the per-call value never influences the
effective sigmoid, even when the constructor value is the bool false),
whereas a constructor linear entry is OR-combined with the per-call linear
argument and the sigmoid truthiness rather than replacing them. -/
theorem C10_ctor_kwargs (origLinear : Option Bool) (origSigmoid : Option SigmoidParam)
    (hc lin : Bool) (s1 s2 s : SigmoidParam) (b : Bool) :
    (origSigmoid = some s →
      effSigmoid ⟨origLinear, origSigmoid, hc, lin, s1⟩ = s ∧
      effSigmoid ⟨origLinear, origSigmoid, hc, lin, s1⟩ =
        effSigmoid ⟨origLinear, origSigmoid, hc, lin, s2⟩) ∧
    (origLinear = some b →
      effLinear ⟨origLinear, origSigmoid, hc, lin, s1⟩ =
        (b || lin || sigmoidTruthy (effSigmoid ⟨origLinear, origSigmoid, hc, lin, s1⟩))) := by
  constructor
  · intro h
    subst h
    exact ⟨rfl, rfl⟩
  · intro h
    subst h
    rfl

/-- C10, witness: constructor sigmoid false silences a per-call sigmoid
True, and constructor linear true is OR-combined. -/
theorem C10_ctor_kwargs_witness :
    effSigmoid ⟨some true, some (SigmoidParam.sbool false), false, false,
      SigmoidParam.sbool true⟩ = SigmoidParam.sbool false ∧
    effLinear ⟨some true, some (SigmoidParam.sbool false), false, false,
      SigmoidParam.sbool true⟩ =
      (true || false || sigmoidTruthy (effSigmoid ⟨some true,
        some (SigmoidParam.sbool false), false, false, SigmoidParam.sbool true⟩)) :=
  ⟨((C10_ctor_kwargs (some true) (some (SigmoidParam.sbool false)) false false
      (SigmoidParam.sbool true) (SigmoidParam.sbool true) (SigmoidParam.sbool false)
      true).1 rfl).1,
   (C10_ctor_kwargs (some true) (some (SigmoidParam.sbool false)) false false
      (SigmoidParam.sbool true) (SigmoidParam.sbool true) (SigmoidParam.sbool false)
      true).2 rfl⟩

end VsKernels
